import Mathlib

/-!
Verification development for the IHI heart-disease risk assessment backend.

The definitions below are a shallow embedding of the JavaScript sources:

* `src/backend/utils/framinghamRiskScore.js` (points-table model),
* `src/backend/utils/preventModel.js` (multiplicative-heuristic model),
* `src/backend/utils/riskCalculator.js` (aggregator `calculateRisk`),
* `src/backend/routes/chatbot.js` (conversational state machine, first
  implementation in the file: the `/start`, `/message` route pair with
  `QUESTION_FLOW`, `FIELD_CONFIG`, `FOLLOW_UPS`, `isResponseUnknown`,
  `parseAnswer`).

Modelling conventions:

* JavaScript numbers are embedded as `ℚ` (the code only performs +, *, /,
  comparisons, `Math.min/max/round/pow`); `Math.round` is half-up rounding,
  `jsRound` below.  `Math.pow(1.05, e)` is exact over `ℚ` for integer `e`
  (`1.05 = 21/20`); non-integer exponents are irrational and outside the
  rational model (`pow105` maps them to `0`; nothing in this development
  depends on that branch).
* A missing (`undefined`) or `null` field is `Option.none`: the scoring code
  never distinguishes the two (it only uses truthiness and `===` against
  non-null constants).  JavaScript truthiness of a number is `≠ 0`, of a
  string `≠ ""`.
* Strings interpolated with numbers (`${systolicBP}`) are rendered with
  `qs` (the canonical `ℚ` representation) instead of JavaScript number
  formatting; no theorem inspects the numeric part of a factor string.
* The external database comparison (`includeComparison`) and the timestamp
  are I/O and are outside the model; `calculateRisk` has no other effectful
  or throwing path, so it is embedded as a total function.
-/

namespace IHI

/-- JavaScript `Math.round`: round half toward positive infinity. -/
def jsRound (q : ℚ) : ℤ := Int.floor (q + 1/2)

/-- `Math.round(q * 10) / 10`: the one-decimal rounding used throughout the sources. -/
def round1 (q : ℚ) : ℚ := (jsRound (q * 10) : ℚ) / 10

/-- `Math.pow(1.05, e)`, exact for integer exponents (`1.05 = 21/20` over `ℚ`).
Non-integer exponents are irrational and unrepresentable in `ℚ`; they are mapped
to `0` and are never exercised by any theorem of this development. -/
def pow105 (e : ℚ) : ℚ := if e.den = 1 then (21/20 : ℚ) ^ e.num else 0

/-- Canonical rendering of a rational, used for `${...}` string interpolations. -/
def qs (q : ℚ) : String := toString q

/-- Does `pat` occur at the head of the character list (second argument)? -/
def listStarts : List Char → List Char → Bool
  | [], _ => true
  | _ :: _, [] => false
  | a :: as, b :: bs => a = b && listStarts as bs

/-- Does `pat` occur anywhere in the character list?  Implements JavaScript
`String.prototype.includes`. -/
def listHasSub (pat : List Char) : List Char → Bool
  | [] => listStarts pat []
  | c :: rest => listStarts pat (c :: rest) || listHasSub pat rest

/-- JavaScript `s.includes(pat)`. -/
def jsIncludes (s pat : String) : Bool := listHasSub pat.toList s.toList

/-- JavaScript `s.toLowerCase()` (ASCII-sufficient for every string compared
here), implemented over the character list so that it reduces in the kernel. -/
def jsLower (s : String) : String := String.mk (s.toList.map Char.toLower)

/-- JavaScript `s.trim()`: strip leading and trailing whitespace. -/
def jsTrim (s : String) : String :=
  String.mk (((s.toList.dropWhile Char.isWhitespace).reverse.dropWhile Char.isWhitespace).reverse)

/-- JavaScript `s.startsWith(pat)`. -/
def jsStartsWith (s pat : String) : Bool := listStarts pat.toList s.toList

/-- A JavaScript primitive value as stored in a patient record field. -/
inductive JSVal where
  | num (q : ℚ)
  | str (s : String)
  | jbool (b : Bool)
  | nan
deriving DecidableEq, Repr

/-- Patient data as consumed by the scoring models (`patientData` in the JS).
`none` is a missing or `null` field. -/
structure PatientData where
  age : Option ℚ := none
  gender : Option String := none
  systolicBP : Option ℚ := none
  diastolicBP : Option ℚ := none
  cholesterol : Option ℚ := none
  hdlCholesterol : Option ℚ := none
  bmi : Option ℚ := none
  diabetes : Option JSVal := none
  smoking : Option JSVal := none
  kidneyDisease : Option JSVal := none
deriving DecidableEq, Repr

/-- `diabetes === true || diabetes === 'yes'` (also used for `kidneyDisease`,
`familyHistory`). -/
def isYes (v : Option JSVal) : Bool :=
  v = some (.jbool true) || v = some (.str "yes")

/-- `smoking === 'current' || smoking === true || smoking === 'yes'`. -/
def isSmokingCurrent (v : Option JSVal) : Bool :=
  v = some (.str "current") || v = some (.jbool true) || v = some (.str "yes")

/-! Framingham points-table model, `framinghamRiskScore.js`. -/

/-- Step 1 of `calculateMaleRisk`: age points from the male points table. -/
def agePointsMale (a : ℚ) : ℤ :=
  if 70 ≤ a ∧ a ≤ 74 then 7
  else if 65 ≤ a ∧ a ≤ 69 then 6
  else if 60 ≤ a ∧ a ≤ 64 then 5
  else if 55 ≤ a ∧ a ≤ 59 then 4
  else if 50 ≤ a ∧ a ≤ 54 then 3
  else if 45 ≤ a ∧ a ≤ 49 then 2
  else if 40 ≤ a ∧ a ≤ 44 then 1
  else if 35 ≤ a ∧ a ≤ 39 then 0
  else if 30 ≤ a ∧ a ≤ 34 then -1
  else 0

/-- Step 1 of `calculateFemaleRisk`: age points from the female points table. -/
def agePointsFemale (a : ℚ) : ℤ :=
  if 70 ≤ a ∧ a ≤ 74 then 8
  else if 65 ≤ a ∧ a ≤ 69 then 8
  else if 60 ≤ a ∧ a ≤ 64 then 6
  else if 55 ≤ a ∧ a ≤ 59 then 4
  else if 50 ≤ a ∧ a ≤ 54 then 2
  else if 45 ≤ a ∧ a ≤ 49 then 1
  else if 40 ≤ a ∧ a ≤ 44 then 0
  else if 35 ≤ a ∧ a ≤ 39 then 0
  else if 30 ≤ a ∧ a ≤ 34 then 0
  else 0

/-- Step 2: total cholesterol points (identical male/female blocks in the source). -/
def cholesterolPoints (c : ℚ) : ℤ :=
  if 280 ≤ c then 3
  else if 240 ≤ c ∧ c < 280 then 2
  else if 200 ≤ c ∧ c < 240 then 1
  else if 160 ≤ c ∧ c < 200 then 0
  else if c < 160 then -3
  else 0

/-- Step 3: HDL cholesterol points (identical male/female blocks in the source). -/
def hdlPoints (h : ℚ) : ℤ :=
  if 60 ≤ h then -2
  else if 50 ≤ h ∧ h < 60 then 0
  else if 45 ≤ h ∧ h < 50 then 0
  else if 35 ≤ h ∧ h < 45 then 1
  else if h < 35 then 2
  else 0

/-- The diastolic cascade of `getBloodPressurePoints`: every branch assigns `0`
in the source, and the value is discarded afterwards. -/
def diastolicBPPoints (d : Option ℚ) : ℤ :=
  match d with
  | none => 0
  | some dv =>
    if dv < 80 then 0
    else if 80 ≤ dv ∧ dv < 85 then 0
    else if 85 ≤ dv ∧ dv < 90 then 0
    else if 90 ≤ dv ∧ dv < 100 then 0
    else if 100 ≤ dv then 0
    else 0

/-- `getBloodPressurePoints(systolicBP, diastolicBP)`: computes the diastolic
points, then returns the systolic points only (as the source does). -/
def getBloodPressurePoints (systolicBP : ℚ) (diastolicBP : Option ℚ) : ℤ :=
  let _diastolicPoints := diastolicBPPoints diastolicBP
  if systolicBP < 120 then 0
  else if 120 ≤ systolicBP ∧ systolicBP < 130 then 0
  else if 130 ≤ systolicBP ∧ systolicBP < 140 then 1
  else if 140 ≤ systolicBP ∧ systolicBP < 160 then 2
  else if 160 ≤ systolicBP then 3
  else 0

/-- `calculateMaleRisk`: total points and the factor strings it pushes. -/
def calculateMaleRisk (a s c h : ℚ) (d : Option ℚ) (diabetes smoking : Option JSVal) :
    ℤ × List String :=
  let pts := agePointsMale a + cholesterolPoints c + hdlPoints h
    + getBloodPressurePoints s d
    + (if isYes diabetes then 2 else 0)
    + (if isSmokingCurrent smoking then 2 else 0)
  let fs := (if isYes diabetes then ["Diabetes increases Framingham risk"] else [])
    ++ (if isSmokingCurrent smoking then ["Current smoking increases Framingham risk"] else [])
  (pts, fs)

/-- `calculateFemaleRisk`: total points and the factor strings it pushes. -/
def calculateFemaleRisk (a s c h : ℚ) (d : Option ℚ) (diabetes smoking : Option JSVal) :
    ℤ × List String :=
  let pts := agePointsFemale a + cholesterolPoints c + hdlPoints h
    + getBloodPressurePoints s d
    + (if isYes diabetes then 4 else 0)
    + (if isSmokingCurrent smoking then 2 else 0)
  let fs := (if isYes diabetes then ["Diabetes significantly increases Framingham risk in women"] else [])
    ++ (if isSmokingCurrent smoking then ["Current smoking increases Framingham risk"] else [])
  (pts, fs)

/-- `pointsToRiskPercentage(points, gender)`: the official lookup tables; the
`else` branch of the source's gender test is the female table, and the trailing
`return 0` is kept (it is unreachable because each table is total over `ℤ`). -/
def pointsToRiskPercentage (points : ℤ) (gender : String) : ℚ :=
  if gender = "male" then
    if points < -1 then 2 else if points = -1 then 2
    else if points = 0 then 3 else if points = 1 then 3
    else if points = 2 then 4 else if points = 3 then 5
    else if points = 4 then 7 else if points = 5 then 8
    else if points = 6 then 10 else if points = 7 then 13
    else if points = 8 then 16 else if points = 9 then 20
    else if points = 10 then 25 else if points = 11 then 31
    else if points = 12 then 37 else if points = 13 then 45
    else if 14 ≤ points then 53 else 0
  else
    if points < 9 then 1 else if points = 9 then 1
    else if points = 10 then 1 else if points = 11 then 2
    else if points = 12 then 2 else if points = 13 then 3
    else if points = 14 then 4 else if points = 15 then 5
    else if points = 16 then 6 else if points = 17 then 8
    else if points = 18 then 10 else if points = 19 then 11
    else if points = 20 then 13 else if points = 21 then 15
    else if points = 22 then 18 else if points = 23 then 20
    else if points = 24 then 23 else if points = 25 then 27
    else if points = 26 then 32 else if points = 27 then 37
    else if 28 ≤ points then 43 else 0

/-- Result shape of `FraminghamRiskScore.calculate`. -/
structure FraminghamResult where
  score : ℤ
  riskPercentage : ℚ
  factors : List String
  model : String
deriving DecidableEq, Repr

/-- `FraminghamRiskScore.calculate(patientData)`.  The truthiness guard
`!age || !gender || !systolicBP || !cholesterol || !hdlCholesterol` becomes the
`none` match arms together with the zero / empty-string test. -/
def framinghamCalculate (r : PatientData) : Option FraminghamResult :=
  match r.age, r.gender, r.systolicBP, r.cholesterol, r.hdlCholesterol with
  | some a, some g, some s, some c, some h =>
    if a = 0 ∨ g = "" ∨ s = 0 ∨ c = 0 ∨ h = 0 then none
    else if a < 30 ∨ 74 < a then none
    else if g = "male" then
      let pf := calculateMaleRisk a s c h r.diastolicBP r.diabetes r.smoking
      some { score := pf.1, riskPercentage := round1 (pointsToRiskPercentage pf.1 g),
             factors := pf.2, model := "Framingham" }
    else if g = "female" then
      let pf := calculateFemaleRisk a s c h r.diastolicBP r.diabetes r.smoking
      some { score := pf.1, riskPercentage := round1 (pointsToRiskPercentage pf.1 g),
             factors := pf.2, model := "Framingham" }
    else none
  | _, _, _, _, _ => none

/-! Multiplicative-heuristic model, `preventModel.js`. -/

/-- Result shape of `PREVENTModel.calculate`. -/
structure PreventResult where
  risk10Year : ℚ
  risk30Year : ℚ
  factors : List String
  model : String
deriving DecidableEq, Repr

/-- `PREVENTModel.calculateBaseRisk(patientData, factors)`: the accumulated base
risk clamped to `[1, 50]`, paired with the factor strings pushed along the way
(blood pressure, then cholesterol, then HDL, then BMI).  The `if (cholesterol)`
/ `if (hdlCholesterol)` / `if (bmi)` truthiness tests skip the block when the
field is missing, `null`, or `0`. -/
def calculateBaseRisk (a : ℚ) (g : String) (s : ℚ)
    (cholesterol hdlCholesterol bmi : Option ℚ) : ℚ × List String :=
  let ageFactor := pow105 (a - 40)
  let genderAdd : ℚ := if g = "male" then 3 else 1
  let bp : ℚ × List String :=
    if 180 ≤ s then
      (15, ["Stage 3 hypertension: Higher values increase risk (≥ 180 mmHg). Your systolic blood pressure of " ++ qs s ++ " mmHg falls in this high-risk range."])
    else if 140 ≤ s then
      (10, ["Stage 2 hypertension: Higher values increase risk (140-179 mmHg). Your systolic blood pressure of " ++ qs s ++ " mmHg falls in this range."])
    else if 130 ≤ s then
      (6, ["Stage 1 hypertension: Higher values increase risk (130-139 mmHg). Your systolic blood pressure of " ++ qs s ++ " mmHg falls in this range."])
    else if 120 ≤ s then
      (2, ["Elevated blood pressure: Higher values increase risk (120-129 mmHg). Your systolic blood pressure of " ++ qs s ++ " mmHg falls in this range."])
    else
      (0, ["Normal blood pressure: Your systolic blood pressure of " ++ qs s ++ " mmHg is within the healthy range (< 120 mmHg)."])
  let chol : ℚ × List String :=
    match cholesterol with
    | some c =>
      if c = 0 then (0, [])
      else if 240 ≤ c then
        (8, ["High total cholesterol: Higher values increase risk (≥ 240 mg/dL). Your total cholesterol of " ++ qs c ++ " mg/dL falls in this high-risk range."])
      else if 200 ≤ c then
        (4, ["Borderline high cholesterol: Higher values increase risk (200-239 mg/dL). Your total cholesterol of " ++ qs c ++ " mg/dL falls in this range."])
      else if 150 ≤ c then
        (0, ["Normal total cholesterol: Your total cholesterol of " ++ qs c ++ " mg/dL is within the desirable range (150-199 mg/dL)."])
      else
        (0, ["Low total cholesterol: Your total cholesterol of " ++ qs c ++ " mg/dL is below the normal range (< 150 mg/dL)."])
    | none => (0, [])
  let hdl : ℚ × List String :=
    match hdlCholesterol with
    | some h =>
      if h = 0 then (0, [])
      else if h < 40 then
        (5, ["Low HDL cholesterol: Lower values increase risk (< 40 mg/dL). Your HDL cholesterol of " ++ qs h ++ " mg/dL falls in this risk range."])
      else if 60 ≤ h then
        (-3, ["High HDL cholesterol: Higher values are protective (≥ 60 mg/dL). Your HDL cholesterol of " ++ qs h ++ " mg/dL is beneficial."])
      else
        (0, ["Normal HDL cholesterol: Your HDL cholesterol of " ++ qs h ++ " mg/dL is within the normal range (40-59 mg/dL)."])
    | none => (0, [])
  let bmiPart : ℚ × List String :=
    match bmi with
    | some b =>
      if b = 0 then (0, [])
      else if 30 ≤ b then
        (6, ["Obesity: A higher BMI increases your risk. Your BMI of " ++ qs b ++ " indicates obesity (BMI ≥ 30)."])
      else if 25 ≤ b then
        (3, ["Overweight: A higher BMI increases your risk. Your BMI of " ++ qs b ++ " indicates overweight (BMI 25-29.9)."])
      else if 37/2 ≤ b then
        (0, ["Normal weight: Your BMI of " ++ qs b ++ " is within the healthy range (BMI 18.5-24.9)."])
      else
        (0, ["Underweight: Your BMI of " ++ qs b ++ " is below the normal range (BMI < 18.5) and may require medical attention."])
    | none => (0, [])
  let baseRisk := 5 + ageFactor * 2 + genderAdd + bp.1 + chol.1 + hdl.1 + bmiPart.1
  (max 1 (min 50 baseRisk), bp.2 ++ chol.2 ++ hdl.2 ++ bmiPart.2)

/-- `PREVENTModel.calculate(patientData)`.  The guard is
`!age || !gender || !systolicBP`; the multiplier accumulates ×1.5 (diabetes),
×1.4 (current smoking), ×1.3 (kidney disease); both horizons are clamped to 95
independently and rounded to one decimal on return. -/
def preventCalculate (r : PatientData) : Option PreventResult :=
  match r.age, r.gender, r.systolicBP with
  | some a, some g, some s =>
    if a = 0 ∨ g = "" ∨ s = 0 then none
    else
      let base := calculateBaseRisk a g s r.cholesterol r.hdlCholesterol r.bmi
      let diab : ℚ × List String :=
        if isYes r.diabetes then
          (3/2, ["Diabetes: Increases PREVENT risk by 50% (1.5x multiplier applied to base risk)."])
        else (1, [])
      let smoke : ℚ × List String :=
        if isSmokingCurrent r.smoking then
          (7/5, ["Current smoking: Increases PREVENT risk by 40% (1.4x multiplier applied to base risk)."])
        else (1, [])
      let kidney : ℚ × List String :=
        if isYes r.kidneyDisease then
          (13/10, ["Kidney disease: Increases PREVENT risk by 30% (1.3x multiplier applied to base risk)."])
        else (1, [])
      let multiplier := diab.1 * smoke.1 * kidney.1
      let risk10 := min 95 (base.1 * multiplier)
      let risk30 := min 95 (base.1 * multiplier * (9/5))
      some { risk10Year := round1 risk10, risk30Year := round1 risk30,
             factors := base.2 ++ diab.2 ++ smoke.2 ++ kidney.2, model := "PREVENT" }
  | _, _, _ => none

/-! Aggregator, `riskCalculator.js` (`RiskCalculator.calculateRisk`). -/

/-- Result shape of `RiskCalculator.calculateRisk` (the `timestamp` and the
optional `databaseComparison` payload are I/O and outside the model). -/
structure RiskAssessment where
  riskScore : ℤ
  riskPercentage : ℚ
  category : String
  categoryDescription : String
  factors : List String
  framingham : Option FraminghamResult
  prevent : Option PreventResult
deriving DecidableEq, Repr

/-- Net effect of `riskCalculator.js` lines 24–45: the initial `+=`
accumulation of `combinedRiskPercentage` is overwritten by the subsequent
`if/else if` chain whenever at least one model result is present, so the
combined percentage is the mean of two results, a sole result unchanged, or
`0` when both models returned `null`. -/
def combinedPercentage (fr : Option FraminghamResult) (pr : Option PreventResult) : ℚ :=
  match fr, pr with
  | some f, some p => (f.riskPercentage + p.risk10Year) / 2
  | some f, none => f.riskPercentage
  | none, some p => p.risk10Year
  | none, none => 0

/-- Category cascade of `calculateRisk` (lines 61–75), evaluated on the
combined percentage. -/
def categoryOf (p : ℚ) : String :=
  if 20 ≤ p then "high"
  else if 10 ≤ p then "moderate"
  else if 5 ≤ p then "low-moderate"
  else "low"

/-- Human-readable description paired with each category branch. -/
def categoryDescriptionOf (p : ℚ) : String :=
  if 20 ≤ p then "High Risk"
  else if 10 ≤ p then "Moderate Risk"
  else if 5 ≤ p then "Low-Moderate Risk"
  else "Low Risk"

/-- `RiskCalculator.calculateRisk(patientData)`: runs both models, combines
them, derives the 0–100 display score `min(100, p*2)` (rounded), rounds the
returned percentage to one decimal, and concatenates the factor lists in
model order (Framingham first).  The source has no failure path: with zero
model results it still builds an assessment from `combinedRiskPercentage = 0`. -/
def calculateRisk (r : PatientData) : RiskAssessment :=
  let fr := framinghamCalculate r
  let pr := preventCalculate r
  let p := combinedPercentage fr pr
  let allFactors :=
    (match fr with | some f => f.factors | none => [])
      ++ (match pr with | some pv => pv.factors | none => [])
  { riskScore := jsRound (min 100 (p * 2)),
    riskPercentage := round1 p,
    category := categoryOf p,
    categoryDescription := categoryDescriptionOf p,
    factors := allFactors,
    framingham := fr,
    prevent := pr }

/-! Conversational flow, `routes/chatbot.js` (first implementation in the
file: `QUESTION_FLOW` / `FIELD_CONFIG` / `FOLLOW_UPS` and the
`router.post('/message')` handler). -/

/-- The keys of `collectedData`: the twelve `QUESTION_FLOW` fields plus the
three follow-up target fields. -/
inductive Field where
  | age | gender | systolicBP | diastolicBP | cholesterol | hdlCholesterol
  | bmi | smoking | physicalActivity | dietQuality | diabetes | familyHistory
  | diabetesType | diabetesDuration | cigarettesPerDay
deriving DecidableEq, Repr

/-- The ordered question flow (`QUESTION_FLOW`). -/
def QUESTION_FLOW : List Field :=
  [.age, .gender, .systolicBP, .diastolicBP, .cholesterol, .hdlCholesterol,
   .bmi, .smoking, .physicalActivity, .dietQuality, .diabetes, .familyHistory]

/-- `FIELD_CONFIG[field].required`: only age and gender are required. -/
def fieldRequired : Field → Bool
  | .age => true
  | .gender => true
  | _ => false

/-- The JavaScript property name of a field (used in the `${currentField}`
interpolation of the required-field re-prompt). -/
def fieldName : Field → String
  | .age => "age"
  | .gender => "gender"
  | .systolicBP => "systolicBP"
  | .diastolicBP => "diastolicBP"
  | .cholesterol => "cholesterol"
  | .hdlCholesterol => "hdlCholesterol"
  | .bmi => "bmi"
  | .smoking => "smoking"
  | .physicalActivity => "physicalActivity"
  | .dietQuality => "dietQuality"
  | .diabetes => "diabetes"
  | .familyHistory => "familyHistory"
  | .diabetesType => "diabetesType"
  | .diabetesDuration => "diabetesDuration"
  | .cigarettesPerDay => "cigarettesPerDay"

/-- `FIELD_CONFIG[field].text` (empty for the follow-up target fields, which
have no entry in `FIELD_CONFIG`). -/
def fieldText : Field → String
  | .age => "What\x27s your age?"
  | .gender => "What\x27s your gender? (male/female/other)"
  | .systolicBP => "What\x27s your systolic blood pressure, the top number? (Normal: < 120 mmHg, Elevated: 120-129, High: ≥ 130 mmHg)"
  | .diastolicBP => "What\x27s your diastolic blood pressure, the bottom number? (Normal: < 80 mmHg, Elevated: 80-89, High: ≥ 90 mmHg)"
  | .cholesterol => "What\x27s your total cholesterol level? (Desirable: < 200 mg/dL, Borderline: 200-239, High: ≥ 240 mg/dL)"
  | .hdlCholesterol => "What\x27s your HDL cholesterol (the \x27good\x27 cholesterol)? (Low risk: ≥ 60 mg/dL, Normal: 40-59, High risk: < 40 mg/dL)"
  | .bmi => "What\x27s your BMI (Body Mass Index)? (Underweight: < 18.5, Normal: 18.5-24.9, Overweight: 25-29.9, Obese: ≥ 30). If you don\x27t know your BMI, you can provide your weight and height."
  | .smoking => "Do you smoke? (current/former/never)"
  | .physicalActivity => "How much physical activity do you get? (sedentary: little to no exercise, moderate: some regular exercise, active: regular exercise most days)"
  | .dietQuality => "How would you rate your diet quality? (poor: mostly processed foods, fair: mixed diet, good: mostly whole foods, excellent: very healthy balanced diet)"
  | .diabetes => "Do you have diabetes? (yes/no)"
  | .familyHistory => "Do you have a family history of heart disease? (yes/no - includes parents, siblings, or grandparents with heart disease)"
  | _ => ""

/-- The three follow-up sub-flows (`FOLLOW_UPS` keys). -/
inductive FollowUpId where
  | diabetesType | diabetesDuration | smokingAmount
deriving DecidableEq, Repr

/-- `FOLLOW_UPS[key].field`: the record field a follow-up answer is stored in. -/
def followUpField : FollowUpId → Field
  | .diabetesType => .diabetesType
  | .diabetesDuration => .diabetesDuration
  | .smokingAmount => .cigarettesPerDay

/-- `FOLLOW_UPS[key].next`: the chained follow-up, if any. -/
def followUpNext : FollowUpId → Option FollowUpId
  | .diabetesType => some .diabetesDuration
  | .diabetesDuration => none
  | .smokingAmount => none

/-- `FOLLOW_UPS[key].text`. -/
def followUpText : FollowUpId → String
  | .diabetesType => "I see. What type of diabetes do you have? (Type 1 / Type 2 / Gestational / Other)"
  | .diabetesDuration => "How many years have you been managing your diabetes?"
  | .smokingAmount => "About how many cigarettes do you smoke per day?"

/-- `FIELD_CONFIG[field].checkFollowUp(value)`:
smoking `current` triggers the cigarette-count follow-up; diabetes `true`
triggers the diabetes-type follow-up. -/
def checkFollowUp (f : Field) (v : JSVal) : Option FollowUpId :=
  match f with
  | .smoking => if v = .str "current" then some .smokingAmount else none
  | .diabetes => if v = .jbool true then some .diabetesType else none
  | _ => none

/-- `isResponseUnknown(message)`: substring containment of any of the fixed
phrases in the lowercased, trimmed utterance. -/
def isResponseUnknown (message : String) : Bool :=
  let lower := jsTrim (jsLower message)
  ["i don\x27t know", "unknown", "skip", "pass", "not sure", "unsure", "idk", "na", "n/a"].any
    (fun phrase => jsIncludes lower phrase)

/-- Numeric value of a decimal digit character. -/
def digitVal (c : Char) : ℕ := c.toNat - 48

/-- Value of a (most-significant-first) digit string. -/
def natOfDigits (ds : List Char) : ℕ := ds.foldl (fun n c => n * 10 + digitVal c) 0

/-- Value of `intPart.fracPart` as a rational (`parseFloat` of the matched text;
an empty integer part is `parseFloat(".5") = 0.5`). -/
def qOfParts (intPart fracPart : List Char) : ℚ :=
  (natOfDigits intPart : ℚ) + (natOfDigits fracPart : ℚ) / (10 ^ fracPart.length)

/-- First match of the regex `\d+(\.\d+)?`: the integer digits and the
fractional digits (empty when the optional group did not match). -/
def firstNumMatch : List Char → Option (List Char × List Char)
  | [] => none
  | c :: rest =>
    if c.isDigit then
      let ds := (c :: rest).takeWhile Char.isDigit
      let r1 := (c :: rest).dropWhile Char.isDigit
      match r1 with
      | '.' :: r2 =>
        let fs := r2.takeWhile Char.isDigit
        if fs = [] then some (ds, []) else some (ds, fs)
      | _ => some (ds, [])
    else firstNumMatch rest

/-- `parseFloat` of the first `\d+(\.\d+)?` match in the message (`numMatch`). -/
def jsNumMatch (s : String) : Option ℚ :=
  (firstNumMatch s.toList).map (fun p => qOfParts p.1 p.2)

/-- JavaScript `parseInt(s)`: optional whitespace and sign, then leading decimal
digits; `none` is `NaN`. -/
def jsParseInt (s : String) : Option ℤ :=
  let cs := s.toList.dropWhile Char.isWhitespace
  match cs with
  | '-' :: rest =>
    let ds := rest.takeWhile Char.isDigit
    if ds = [] then none else some (-(natOfDigits ds : ℤ))
  | '+' :: rest =>
    let ds := rest.takeWhile Char.isDigit
    if ds = [] then none else some ((natOfDigits ds : ℤ))
  | _ =>
    let ds := cs.takeWhile Char.isDigit
    if ds = [] then none else some ((natOfDigits ds : ℤ))

/-- The `bmi[:\s]*(\d+(\.\d+)?)` case-insensitive search: scan the lowercased
characters for `bmi`, skip colons and whitespace, and require digits there;
otherwise resume the scan one character further (regex backtracking). -/
def bmiScan : List Char → Option ℚ
  | [] => none
  | c :: rest =>
    if listStarts ['b', 'm', 'i'] (c :: rest) then
      let after := (rest.drop 2).dropWhile (fun ch => ch = ':' || ch.isWhitespace)
      match firstNumMatch after with
      | some (ds, fs) =>
        if listStarts ds after then some (qOfParts ds fs) else bmiScan rest
      | none => bmiScan rest
    else bmiScan rest

/-- `parseAnswer(message, field)`: the rule-based fallback.  `none` is the
JavaScript `undefined` returned when nothing matched; the `NaN`s produced by
`parseInt` on a malformed blood-pressure pair are kept as values, exactly as
the route does. -/
def parseAnswer (message : String) (field : Field) : Option JSVal :=
  let lower := jsTrim (jsLower message)
  match field with
  | .age | .systolicBP | .diastolicBP | .cholesterol | .hdlCholesterol =>
    if (field = .systolicBP ∨ field = .diastolicBP) ∧ jsIncludes message "/" then
      let parts := message.splitOn "/"
      if field = .systolicBP then
        some (match jsParseInt (parts.getD 0 "") with | some n => .num (n : ℚ) | none => .nan)
      else
        match parts[1]? with
        | some p1 => some (match jsParseInt p1 with | some n => .num (n : ℚ) | none => .nan)
        | none => some .nan
    else
      match jsNumMatch message with
      | some q => some (.num q)
      | none => none
  | .bmi =>
    match bmiScan ((jsLower message).toList) with
    | some q => some (.num q)
    | none =>
      match firstNumMatch message.toList with
      | some (ds, fs) =>
        if fs = [] then some (.num (qOfParts ds []))
        else some (.num (qOfParts [] fs))
      | none => none
  | .gender =>
    if jsIncludes lower "female" ∨ jsStartsWith lower "f" ∨ jsIncludes lower "woman" then
      some (.str "female")
    else if jsIncludes lower "male" ∨ jsStartsWith lower "m" ∨ jsIncludes lower "man" then
      some (.str "male")
    else none
  | .smoking =>
    if jsIncludes lower "current" ∨ jsIncludes lower "yes" then some (.str "current")
    else if jsIncludes lower "former" ∨ jsIncludes lower "quit" then some (.str "former")
    else if jsIncludes lower "never" ∨ jsIncludes lower "no" then some (.str "never")
    else none
  | .diabetes | .familyHistory =>
    if jsIncludes lower "yes" ∨ jsIncludes lower "have" then some (.jbool true)
    else if jsIncludes lower "no" then some (.jbool false)
    else none
  | .physicalActivity =>
    if jsIncludes lower "sedentary" ∨ jsIncludes lower "none" then some (.str "sedentary")
    else if jsIncludes lower "moderate" then some (.str "moderate")
    else if jsIncludes lower "active" then some (.str "active")
    else none
  | .dietQuality =>
    if jsIncludes lower "poor" then some (.str "poor")
    else if jsIncludes lower "fair" then some (.str "fair")
    else if jsIncludes lower "good" then some (.str "good")
    else if jsIncludes lower "excellent" then some (.str "excellent")
    else none
  | _ => none

/-- State of one `collectedData` entry: never asked, answered `null`
("don\x27t know" on an optional field), or a stored value. -/
inductive JSField where
  | unset
  | jnull
  | val (v : JSVal)
deriving DecidableEq, Repr

/-- Pointwise update of the collected-data map. -/
def setField (cd : Field → JSField) (f : Field) (v : JSField) : Field → JSField :=
  fun f2 => if f2 = f then v else cd f2

/-- One conversation context (`conversationContexts` entry), as initialised by
`/start` and mutated by `/message`. -/
structure ChatContext where
  collectedData : Field → JSField
  currentQuestionIndex : ℕ
  currentPhase : String
  followUpState : Option FollowUpId
  waitingForConfirmation : Bool
  waitingForRiskLowering : Bool
  waitingForComparison : Bool
  riskAssessment : Option RiskAssessment

/-- The context created by `router.post('/start')`. -/
def initialContext : ChatContext :=
  { collectedData := fun _ => .unset, currentQuestionIndex := 0,
    currentPhase := "collectingData", followUpState := none,
    waitingForConfirmation := false, waitingForRiskLowering := false,
    waitingForComparison := false, riskAssessment := none }

/-- The response returned by one `/message` call, by branch.  Response strings
are carried where a claim inspects them. -/
inductive Reply where
  | riskSummary (a : RiskAssessment)
  | deferral (text : String)
  | lowering (showed : Bool)
  | comparison (showed : Bool)
  | followUpPrompt (k : FollowUpId)
  | requiredReprompt (text : String)
  | clarify (text : String)
  | nextQuestion (f : Field)
  | askConfirm
  | serverError
deriving DecidableEq, Repr

/-- The deferral text of the confirmation-phase negative branch. -/
def deferralText : String :=
  "Okay, I\x27ve saved your data. You can calculate your risk anytime by clicking the \x27Calculate Risk\x27 button."

/-- The required-field re-prompt: restates the field name and its question. -/
def repromptText (f : Field) : String :=
  "I understand you might not be sure, but I need an estimate for your "
    ++ fieldName f ++ " to calculate your risk correctly. " ++ fieldText f

/-- The clarification re-prompt for an unparseable answer. -/
def clarifyText (f : Field) : String :=
  "I didn\x27t quite catch that. " ++ fieldText f

/-- Conversion of the chat-level `collectedData` to the `patientData` object
handed to `riskCalculator.calculateRisk`: unset and `null` fields are both
absent for the models; a stored `NaN` is falsy and fails every comparison, so
it behaves as an absent numeric field.  `kidneyDisease` is never collected by
this flow. -/
def toPatientData (cd : Field → JSField) : PatientData :=
  let asNum : JSField → Option ℚ := fun j => match j with
    | .val (.num q) => some q
    | _ => none
  let asStr : JSField → Option String := fun j => match j with
    | .val (.str s) => some s
    | _ => none
  let asVal : JSField → Option JSVal := fun j => match j with
    | .val v => some v
    | _ => none
  { age := asNum (cd .age), gender := asStr (cd .gender),
    systolicBP := asNum (cd .systolicBP), diastolicBP := asNum (cd .diastolicBP),
    cholesterol := asNum (cd .cholesterol), hdlCholesterol := asNum (cd .hdlCholesterol),
    bmi := asNum (cd .bmi), diabetes := asVal (cd .diabetes),
    smoking := asVal (cd .smoking), kidneyDisease := none }

/-- `message.toLowerCase().includes('yes'|'sure'|'ok')`: the confirmation-phase
affirmative test. -/
def yes3 (msg : String) : Bool :=
  jsIncludes (jsLower msg) "yes" || jsIncludes (jsLower msg) "sure"
    || jsIncludes (jsLower msg) "ok"

/-- The affirmative test of the lowering/comparison phases (adds `'please'`). -/
def yes4 (msg : String) : Bool :=
  yes3 msg || jsIncludes (jsLower msg) "please"

/-- Section 4 of the handler: ask the question at the cursor, or switch to the
confirmation phase when the flow is exhausted. -/
def askNextOrFinish (ctx : ChatContext) : ChatContext × Reply :=
  match QUESTION_FLOW.get? ctx.currentQuestionIndex with
  | some f => (ctx, .nextQuestion f)
  | none => ({ ctx with waitingForConfirmation := true }, .askConfirm)

/-- Section 1 of the handler: the calculate-confirmation phase. -/
def confirmationStep (ctx : ChatContext) (msg : String) : ChatContext × Reply :=
  if yes3 msg then
    let assessment := calculateRisk (toPatientData ctx.collectedData)
    ({ ctx with currentPhase := "calculatingRisk", waitingForConfirmation := false, riskAssessment := some assessment, waitingForRiskLowering := true }, .riskSummary assessment)
  else
    ({ ctx with waitingForConfirmation := false }, .deferral deferralText)

/-- The would-you-like-to-lower-your-risk phase: either branch clears the flag
and moves on to the comparison question. -/
def loweringStep (ctx : ChatContext) (msg : String) : ChatContext × Reply :=
  if yes4 msg then
    ({ ctx with waitingForRiskLowering := false, waitingForComparison := true }, .lowering true)
  else
    ({ ctx with waitingForRiskLowering := false, waitingForComparison := true }, .lowering false)

/-- The Synthea-comparison phase: either branch completes the guided flow. -/
def comparisonStep (ctx : ChatContext) (msg : String) : ChatContext × Reply :=
  if yes4 msg then
    ({ ctx with waitingForComparison := false, currentPhase := "completed" }, .comparison true)
  else
    ({ ctx with waitingForComparison := false, currentPhase := "completed" }, .comparison false)

/-- Section 2 of the handler: a pending follow-up stores the raw utterance into
its target field, then chains or resumes the main flow. -/
def followUpStep (ctx : ChatContext) (msg : String) (k : FollowUpId) : ChatContext × Reply :=
  let cd := setField ctx.collectedData (followUpField k) (.val (.str msg))
  match followUpNext k with
  | some k2 => ({ ctx with collectedData := cd, followUpState := some k2 }, .followUpPrompt k2)
  | none =>
    askNextOrFinish { ctx with collectedData := cd, followUpState := none, currentQuestionIndex := ctx.currentQuestionIndex + 1 }

/-- Section 3 of the handler: the main collecting flow for the field at the
cursor.  `aiRes` is the value produced by the AI extraction adapter (`none`
when extraction is disabled, failed, or returned `null`, in which case the
rule-based parser runs).  A stored value is checked first; the unknown test
applies only when no value was parsed; otherwise a clarification re-prompt is
sent.  An exhausted cursor in this branch makes the route throw
(`FIELD_CONFIG[undefined]`), surfaced by the outer handler as a 500. -/
def collectingStep (ctx : ChatContext) (msg : String) (aiRes : Option JSVal) :
    ChatContext × Reply :=
  match QUESTION_FLOW.get? ctx.currentQuestionIndex with
  | none => (ctx, .serverError)
  | some f =>
    let parsed := match aiRes with
      | some v => some v
      | none => parseAnswer msg f
    match parsed with
    | some v =>
      let cd := setField ctx.collectedData f (.val v)
      match checkFollowUp f v with
      | some k => ({ ctx with collectedData := cd, followUpState := some k }, .followUpPrompt k)
      | none =>
        askNextOrFinish { ctx with collectedData := cd, currentQuestionIndex := ctx.currentQuestionIndex + 1 }
    | none =>
      if isResponseUnknown msg then
        if fieldRequired f then (ctx, .requiredReprompt (repromptText f))
        else
          askNextOrFinish { ctx with collectedData := setField ctx.collectedData f .jnull, currentQuestionIndex := ctx.currentQuestionIndex + 1 }
      else (ctx, .clarify (clarifyText f))

/-- One `/message` call: phases are tested in the source order (confirmation,
lowering, comparison, follow-up, main flow). -/
def chatStep (ctx : ChatContext) (msg : String) (aiRes : Option JSVal) :
    ChatContext × Reply :=
  if ctx.waitingForConfirmation then confirmationStep ctx msg
  else if ctx.waitingForRiskLowering then loweringStep ctx msg
  else if ctx.waitingForComparison then comparisonStep ctx msg
  else
    match ctx.followUpState with
    | some k => followUpStep ctx msg k
    | none => collectingStep ctx msg aiRes

/-! Helper lemmas. -/

/-- The first projection distributes over a conditional pair. -/
lemma fst_ite (c : Prop) [Decidable c] (x y : ℚ × List String) :
    (if c then x else y).1 = if c then x.1 else y.1 := by
  split_ifs <;> rfl

/-- `Math.round` is the identity on integers. -/
lemma jsRound_int (k : ℤ) : jsRound (k : ℚ) = k := by
  unfold jsRound
  rw [Int.floor_int_add]
  norm_num

/-- One-decimal rounding is the identity on multiples of `1/10`. -/
lemma round1_tenths (k : ℤ) : round1 ((k : ℚ) / 10) = (k : ℚ) / 10 := by
  unfold round1
  rw [show ((k : ℚ) / 10) * 10 = (k : ℚ) by ring, jsRound_int]

/-- One-decimal rounding is idempotent. -/
lemma round1_round1 (q : ℚ) : round1 (round1 q) = round1 q :=
  round1_tenths (jsRound (q * 10))

/-- The empty patient record (all fields missing). -/
def emptyPatient : PatientData := {}

/-- C1 counterexample record aside, the reference two-model record: a
41-year-old male with systolic 100, cholesterol 170, HDL 50.  Framingham gives
1 point = 3%; PREVENT gives base `5 + 2·1.05 + 3 = 10.1` and no multipliers. -/
def rec41 : PatientData :=
  { age := some 41, gender := some "male", systolicBP := some 100,
    cholesterol := some 170, hdlCholesterol := some 50 }

/-- The Framingham result on `rec41`. -/
def fr41 : FraminghamResult :=
  { score := 1, riskPercentage := 3, factors := [], model := "Framingham" }

/-- The PREVENT result on `rec41`. -/
def pr41 : PreventResult :=
  { risk10Year := 101/10, risk30Year := 91/5,
    factors :=
      ["Normal blood pressure: Your systolic blood pressure of 100 mmHg is within the healthy range (< 120 mmHg).",
       "Normal total cholesterol: Your total cholesterol of 170 mg/dL is within the desirable range (150-199 mg/dL).",
       "Normal HDL cholesterol: Your HDL cholesterol of 50 mg/dL is within the normal range (40-59 mg/dL)."],
    model := "PREVENT" }

/-- C4.  The aggregator's risk category follows the fixed breakpoints on the
combined percentage: `< 5 → low`, `5 ≤ p < 10 → low-moderate`,
`10 ≤ p < 20 → moderate`, `≥ 20 → high`; the boundary values 5.0, 10.0, 20.0
and 4.9 land as the spec states; and `calculateRisk` derives the category from
the combined percentage itself (not from the 0–100 display score). -/
theorem category_breakpoints :
    (∀ p : ℚ,
      (categoryOf p = "low" ↔ p < 5)
      ∧ (categoryOf p = "low-moderate" ↔ 5 ≤ p ∧ p < 10)
      ∧ (categoryOf p = "moderate" ↔ 10 ≤ p ∧ p < 20)
      ∧ (categoryOf p = "high" ↔ 20 ≤ p))
    ∧ categoryOf 5 = "low-moderate"
    ∧ categoryOf 10 = "moderate"
    ∧ categoryOf 20 = "high"
    ∧ categoryOf (49/10) = "low"
    ∧ (∀ r : PatientData, (calculateRisk r).category
        = categoryOf (combinedPercentage (framinghamCalculate r) (preventCalculate r))) := by
  refine ⟨fun p => ?_, by norm_num [categoryOf], by norm_num [categoryOf],
    by norm_num [categoryOf], by norm_num [categoryOf], fun r => rfl⟩
  unfold categoryOf
  split_ifs with h1 h2 h3 <;>
    refine ⟨?_, ?_, ?_, ?_⟩ <;> simp_all <;> first | linarith | (intro h; linarith)

/-- C8.  The Framingham blood-pressure contribution depends only on the
systolic value: two records that differ only in `diastolicBP` get the same
blood-pressure points, the same total points, and the same model result. -/
theorem framingham_ignores_diastolic (r : PatientData) (d1 d2 : Option ℚ) :
    framinghamCalculate { r with diastolicBP := d1 }
        = framinghamCalculate { r with diastolicBP := d2 }
    ∧ (∀ s : ℚ, getBloodPressurePoints s d1 = getBloodPressurePoints s d2)
    ∧ (∀ a s c h dia smo, calculateMaleRisk a s c h d1 dia smo = calculateMaleRisk a s c h d2 dia smo)
    ∧ (∀ a s c h dia smo, calculateFemaleRisk a s c h d1 dia smo = calculateFemaleRisk a s c h d2 dia smo) := by
  obtain ⟨a0, g0, s0, d0, c0, h0, b0, di0, sm0, k0⟩ := r
  refine ⟨?_, fun s => by simp [getBloodPressurePoints],
    fun a s c h dia smo => by simp [calculateMaleRisk, getBloodPressurePoints],
    fun a s c h dia smo => by simp [calculateFemaleRisk, getBloodPressurePoints]⟩
  cases a0 <;> cases g0 <;> cases s0 <;> cases c0 <;> cases h0 <;>
    simp [framinghamCalculate, calculateMaleRisk, calculateFemaleRisk, getBloodPressurePoints]

/-- C9.  Both models test presence by JavaScript truthiness, so a field whose
value is the number `0` is treated exactly like a missing field: the Framingham
model returns `null` when age, systolic BP, cholesterol or HDL is `0`, and the
PREVENT model returns `null` when age or systolic BP is `0`. -/
theorem zero_treated_as_absent (r : PatientData) :
    ((r.age = some 0 ∨ r.systolicBP = some 0 ∨ r.cholesterol = some 0
        ∨ r.hdlCholesterol = some 0) → framinghamCalculate r = none)
    ∧ ((r.age = some 0 ∨ r.systolicBP = some 0) → preventCalculate r = none) := by
  obtain ⟨a0, g0, s0, d0, c0, h0, b0, di0, sm0, k0⟩ := r
  constructor
  · intro h
    cases a0 <;> cases g0 <;> cases s0 <;> cases c0 <;> cases h0 <;>
      simp_all [framinghamCalculate] <;> tauto
  · intro h
    cases a0 <;> cases g0 <;> cases s0 <;>
      simp_all [preventCalculate] <;> tauto

/-- Witness for C9: a record whose systolic blood pressure is the present
value `0` (and one whose age is `0`) is rejected by both models. -/
theorem zero_treated_as_absent_witness :
    framinghamCalculate { rec41 with systolicBP := some 0 } = none
    ∧ preventCalculate { rec41 with systolicBP := some 0 } = none := by
  refine ⟨(zero_treated_as_absent _).1 ?_, (zero_treated_as_absent _).2 ?_⟩ <;> decide

/-- C1 counterexample.  On a record where both models return `null`,
`calculateRisk` does not fail with `InsufficientData`: it returns a fully
formed normal assessment (combined percentage 0, display score 0, category
`low`), built from zero model results.  The source has no failure path at
all in `calculateRisk`. -/
theorem calculateRisk_zero_models_normal_assessment :
    framinghamCalculate emptyPatient = none
    ∧ preventCalculate emptyPatient = none
    ∧ (calculateRisk emptyPatient).category = "low"
    ∧ (calculateRisk emptyPatient).riskPercentage = 0
    ∧ (calculateRisk emptyPatient).riskScore = 0 := by
  refine ⟨rfl, rfl, rfl, ?_, ?_⟩ <;>
    norm_num [calculateRisk, combinedPercentage, emptyPatient, framinghamCalculate,
      preventCalculate, round1, jsRound]

/-- C1 (amended).  Whenever both scoring models return `null`, `calculateRisk`
still returns a normal `RiskAssessment`: combined percentage 0, display score
0, category `low`, empty factor list — it never fails. -/
theorem calculateRisk_zero_models_low (r : PatientData)
    (hf : framinghamCalculate r = none) (hp : preventCalculate r = none) :
    calculateRisk r =
      { riskScore := 0, riskPercentage := 0, category := "low",
        categoryDescription := "Low Risk", factors := [],
        framingham := none, prevent := none } := by
  simp only [calculateRisk, hf, hp]
  norm_num [combinedPercentage, categoryOf, categoryDescriptionOf, round1, jsRound]

/-- Witness for the amended C1 at the empty record. -/
theorem calculateRisk_zero_models_low_witness :
    calculateRisk emptyPatient =
      { riskScore := 0, riskPercentage := 0, category := "low",
        categoryDescription := "Low Risk", factors := [],
        framingham := none, prevent := none } :=
  calculateRisk_zero_models_low emptyPatient rfl rfl

/-- C5.  The points-table model returns `null` exactly when its preconditions
fail: age missing or outside 30–74, gender missing or outside {male, female},
or systolic BP / cholesterol / HDL absent — where "absent" is the source's
truthiness test, so the present value `0` also counts as absent (an empty
gender string is likewise outside {male, female}).  In every other case the
model returns a result; the embedding is a total function, mirroring the
absence of any throwing path in the source. -/
theorem framingham_null_iff (r : PatientData) :
    framinghamCalculate r = none ↔
      (r.age = none ∨ (∃ a, r.age = some a ∧ (a < 30 ∨ 74 < a))
        ∨ r.gender = none ∨ (∃ g, r.gender = some g ∧ g ≠ "male" ∧ g ≠ "female")
        ∨ r.systolicBP = none ∨ r.systolicBP = some 0
        ∨ r.cholesterol = none ∨ r.cholesterol = some 0
        ∨ r.hdlCholesterol = none ∨ r.hdlCholesterol = some 0) := by
  obtain ⟨a0, g0, s0, d0, c0, h0, b0, di0, sm0, k0⟩ := r
  rcases a0 with _ | a <;> rcases g0 with _ | g <;> rcases s0 with _ | s <;>
    rcases c0 with _ | c <;> rcases h0 with _ | h <;>
    simp_all [framinghamCalculate]
  split_ifs with h1 h2 <;> simp_all <;>
    (constructor
     · intro himp
       by_contra hr
       push_neg at hr
       obtain ⟨⟨h30, h74⟩, hs0, hc0, hh0⟩ := hr
       have ha0 : ¬a = 0 := by intro h0; rw [h0] at h30; norm_num at h30
       exact absurd (himp ha0 hs0 hc0 hh0 h30) (not_lt.mpr h74)
     · intro hr ha hs hc hh h30
       rcases hr with (hlt | h74) | hs0 | hc0 | hh0
       · linarith
       · exact h74
       · exact absurd hs0 hs
       · exact absurd hc0 hc
       · exact absurd hh0 hh)

/-- Evaluation lemma: a missing yes/no field is not a yes. -/
lemma isYes_none : isYes none = false := rfl

/-- Evaluation lemma: a missing smoking field is not current smoking. -/
lemma isSmokingCurrent_none : isSmokingCurrent none = false := rfl

/-- Every 10-year percentage produced by the PREVENT model is a one-decimal
rounding (the model rounds on return). -/
lemma prevent_risk10_shape (r : PatientData) (p : PreventResult)
    (hp : preventCalculate r = some p) : ∃ q, p.risk10Year = round1 q := by
  obtain ⟨a0, g0, s0, d0, c0, h0, b0, di0, sm0, k0⟩ := r
  rcases a0 with _ | a <;> rcases g0 with _ | g <;> rcases s0 with _ | s <;>
    simp_all [preventCalculate]
  exact ⟨_, by rw [← hp.2]⟩

/-- C2 (amended).  The percentage returned by `calculateRisk` is the arithmetic
mean of the non-null model percentages rounded to one decimal: with both models
present it is `round1((framingham + prevent)/2)`; with only the PREVENT model
present it is that model's percentage unchanged (the percentage is already
one-decimal, so the final rounding is the identity); and a record accepted by
the Framingham model is always accepted by the PREVENT model too (its required
inputs are a subset), so "Framingham only" never occurs. -/
theorem riskPercentage_rounded_mean :
    (∀ r : PatientData, (calculateRisk r).riskPercentage
        = round1 (combinedPercentage (framinghamCalculate r) (preventCalculate r)))
    ∧ (∀ (r : PatientData) (f : FraminghamResult) (p : PreventResult),
        framinghamCalculate r = some f → preventCalculate r = some p →
        (calculateRisk r).riskPercentage = round1 ((f.riskPercentage + p.risk10Year) / 2))
    ∧ (∀ (r : PatientData) (p : PreventResult),
        framinghamCalculate r = none → preventCalculate r = some p →
        (calculateRisk r).riskPercentage = p.risk10Year)
    ∧ (∀ (r : PatientData) (f : FraminghamResult),
        framinghamCalculate r = some f → ∃ p, preventCalculate r = some p) := by
  refine ⟨fun r => rfl, fun r f p hf hp => ?_, fun r p hf hp => ?_, fun r f hf => ?_⟩
  · simp [calculateRisk, combinedPercentage, hf, hp]
  · simp only [calculateRisk, combinedPercentage, hf, hp]
    obtain ⟨q, hq⟩ := prevent_risk10_shape r p hp
    rw [hq, round1_round1]
  · obtain ⟨a0, g0, s0, d0, c0, h0, b0, di0, sm0, k0⟩ := r
    rcases a0 with _ | a <;> rcases g0 with _ | g <;> rcases s0 with _ | s <;>
      rcases c0 with _ | c <;> rcases h0 with _ | h <;> simp_all [framinghamCalculate]
    obtain ⟨⟨ha, hg, hs, hc, hh⟩, hrange, hbranch⟩ := hf
    simp only [preventCalculate]
    rw [if_neg (by tauto)]
    exact ⟨_, rfl⟩

/-- C2 counterexample.  On `rec41` the model percentages are 3 and 10.1, whose
mean is 6.55, but `calculateRisk` returns 6.6: the returned combined percentage
is the rounded mean, not the exact mean. -/
theorem riskPercentage_not_exact_mean :
    framinghamCalculate rec41 = some fr41
    ∧ preventCalculate rec41 = some pr41
    ∧ (calculateRisk rec41).riskPercentage = 33/5
    ∧ (33/5 : ℚ) ≠ (fr41.riskPercentage + pr41.risk10Year) / 2 := by
  have h1 : framinghamCalculate rec41 = some fr41 := by
    norm_num [framinghamCalculate, rec41, fr41, calculateMaleRisk, agePointsMale,
      cholesterolPoints, hdlPoints, getBloodPressurePoints, diastolicBPPoints,
      pointsToRiskPercentage, isYes_none, isSmokingCurrent_none, round1, jsRound] <;> decide
  have h2 : preventCalculate rec41 = some pr41 := by
    norm_num [preventCalculate, rec41, pr41, calculateBaseRisk, pow105, qs,
      isYes_none, isSmokingCurrent_none, round1, jsRound] <;> decide
  have h3 : (calculateRisk rec41).riskPercentage
      = round1 (combinedPercentage (framinghamCalculate rec41) (preventCalculate rec41)) := rfl
  refine ⟨h1, h2, ?_, by norm_num [fr41, pr41]⟩
  rw [h3, h1, h2]
  norm_num [combinedPercentage, fr41, pr41, round1, jsRound]

/-- The record exercising the PREVENT-only aggregation path: cholesterol and
HDL are missing, so the Framingham model declines while PREVENT succeeds. -/
def recP : PatientData :=
  { age := some 40, gender := some "male", systolicBP := some 100 }

/-- The PREVENT result on `recP` (base `5 + 2 + 3 = 10`, no multipliers). -/
def prP : PreventResult :=
  { risk10Year := 10, risk30Year := 18,
    factors :=
      ["Normal blood pressure: Your systolic blood pressure of 100 mmHg is within the healthy range (< 120 mmHg)."],
    model := "PREVENT" }

/-- Witness for the amended C2: the two-model mean rounding on `rec41` and the
one-model unchanged percentage on `recP`. -/
theorem riskPercentage_rounded_mean_witness :
    (framinghamCalculate rec41 = some fr41
      ∧ preventCalculate rec41 = some pr41
      ∧ (calculateRisk rec41).riskPercentage
          = round1 ((fr41.riskPercentage + pr41.risk10Year) / 2))
    ∧ (framinghamCalculate recP = none
      ∧ preventCalculate recP = some prP
      ∧ (calculateRisk recP).riskPercentage = prP.risk10Year) := by
  have h1 : framinghamCalculate rec41 = some fr41 := by
    norm_num [framinghamCalculate, rec41, fr41, calculateMaleRisk, agePointsMale,
      cholesterolPoints, hdlPoints, getBloodPressurePoints, diastolicBPPoints,
      pointsToRiskPercentage, isYes_none, isSmokingCurrent_none, round1, jsRound] <;> decide
  have h2 : preventCalculate rec41 = some pr41 := by
    norm_num [preventCalculate, rec41, pr41, calculateBaseRisk, pow105, qs,
      isYes_none, isSmokingCurrent_none, round1, jsRound] <;> decide
  have h4 : framinghamCalculate recP = none := rfl
  have h5 : preventCalculate recP = some prP := by
    norm_num [preventCalculate, recP, prP, calculateBaseRisk, pow105, qs,
      isYes_none, isSmokingCurrent_none, round1, jsRound] <;> decide
  exact ⟨⟨h1, h2, riskPercentage_rounded_mean.2.1 rec41 fr41 pr41 h1 h2⟩,
    ⟨h4, h5, riskPercentage_rounded_mean.2.2.1 recP prP h4 h5⟩⟩

/-! C7: the spec-side PREVENT formula (§4.4), stated as independent offsets and
compared with the source's sequential accumulation. -/

/-- Spec formula: the gender offset of the base risk. -/
def specGenderOffset (g : String) : ℚ := if g = "male" then 3 else 1

/-- Spec formula: the blood-pressure offset of the base risk. -/
def specBpOffset (s : ℚ) : ℚ :=
  if 180 ≤ s then 15 else if 140 ≤ s then 10 else if 130 ≤ s then 6
  else if 120 ≤ s then 2 else 0

/-- Spec formula: the cholesterol offset (0 when the field is absent or falsy). -/
def specCholOffset : Option ℚ → ℚ
  | some c => if c = 0 then 0 else if 240 ≤ c then 8 else if 200 ≤ c then 4 else 0
  | none => 0

/-- Spec formula: the HDL offset (0 when the field is absent or falsy). -/
def specHdlOffset : Option ℚ → ℚ
  | some h => if h = 0 then 0 else if h < 40 then 5 else if 60 ≤ h then -3 else 0
  | none => 0

/-- Spec formula: the BMI offset (0 when the field is absent or falsy). -/
def specBmiOffset : Option ℚ → ℚ
  | some b => if b = 0 then 0 else if 30 ≤ b then 6 else if 25 ≤ b then 3 else 0
  | none => 0

/-- Spec formula: base risk
`5 + 2·1.05^(age−40) + genderOffset + bpOffset + cholOffset + hdlOffset + bmiOffset`
clamped to `[1, 50]`. -/
def specBaseRisk (a : ℚ) (g : String) (s : ℚ) (c h b : Option ℚ) : ℚ :=
  max 1 (min 50 (5 + 2 * pow105 (a - 40) + specGenderOffset g + specBpOffset s
    + specCholOffset c + specHdlOffset h + specBmiOffset b))

/-- Spec formula: the product of the independent multipliers ×1.5 (diabetes),
×1.4 (current smoking), ×1.3 (kidney disease). -/
def specMultiplier (r : PatientData) : ℚ :=
  (if isYes r.diabetes then 3/2 else 1) * (if isSmokingCurrent r.smoking then 7/5 else 1)
    * (if isYes r.kidneyDisease then 13/10 else 1)

/-- The source's sequentially accumulated, clamped base risk equals the spec's
offset-sum formula. -/
lemma calculateBaseRisk_eq_spec (a : ℚ) (g : String) (s : ℚ) (c h b : Option ℚ) :
    (calculateBaseRisk a g s c h b).1 = specBaseRisk a g s c h b := by
  rcases c with _ | cv <;> rcases h with _ | hv <;> rcases b with _ | bv <;>
    (simp only [calculateBaseRisk, specBaseRisk, specGenderOffset, specBpOffset,
       specCholOffset, specHdlOffset, specBmiOffset, fst_ite, ite_self]
     congr 1
     congr 1
     ring_nf)

/-- C7 (amended).  For every record the PREVENT model accepts (age, gender and
systolic BP present in the truthiness sense), the returned 10-year risk is the
spec's formula `min(95, clampedBase × multipliers)` rounded to one decimal, the
returned 30-year risk is `min(95, unclamped10YearProduct × 1.8)` rounded to one
decimal (the 30-year clamp applies to the product, independently of the 10-year
clamp), and the accumulated base risk equals the spec's offset-sum formula
clamped to `[1, 50]`.  The claim omits the one-decimal rounding of the returned
fields; everything else holds as stated. -/
theorem prevent_formula_rounded (r : PatientData) (a : ℚ) (g : String) (s : ℚ)
    (res : PreventResult) (ha : r.age = some a) (hg : r.gender = some g)
    (hs : r.systolicBP = some s) (hres : preventCalculate r = some res) :
    res.risk10Year
        = round1 (min 95 (specBaseRisk a g s r.cholesterol r.hdlCholesterol r.bmi
            * specMultiplier r))
    ∧ res.risk30Year
        = round1 (min 95 (specBaseRisk a g s r.cholesterol r.hdlCholesterol r.bmi
            * specMultiplier r * (9/5)))
    ∧ (calculateBaseRisk a g s r.cholesterol r.hdlCholesterol r.bmi).1
        = specBaseRisk a g s r.cholesterol r.hdlCholesterol r.bmi := by
  obtain ⟨a0, g0, s0, d0, c0, h0, b0, di0, sm0, k0⟩ := r
  simp_all [preventCalculate]
  subst ha hg hs
  rw [← hres.2]
  refine ⟨?_, ?_, calculateBaseRisk_eq_spec a g s c0 h0 b0⟩ <;>
    simp [specMultiplier, fst_ite, calculateBaseRisk_eq_spec]

/-- C7 counterexample record: a 42-year-old male with systolic 100; the
unrounded product is `5 + 2·1.05² + 3 = 10.205`. -/
def rec42 : PatientData :=
  { age := some 42, gender := some "male", systolicBP := some 100 }

/-- The PREVENT result on `rec42`: both horizons are rounded to one decimal. -/
def pr42 : PreventResult :=
  { risk10Year := 51/5, risk30Year := 92/5,
    factors :=
      ["Normal blood pressure: Your systolic blood pressure of 100 mmHg is within the healthy range (< 120 mmHg)."],
    model := "PREVENT" }

/-- C7 counterexample.  On `rec42` the claimed 10-year value
`min(95, base × multipliers)` is `10.205`, but the model returns `10.2`
(and `18.4` instead of `18.369` for 30 years): the returned figures are the
claimed products rounded to one decimal, not the products themselves. -/
theorem prevent_risk_rounded_counterexample :
    preventCalculate rec42 = some pr42
    ∧ min 95 ((calculateBaseRisk 42 "male" 100 none none none).1 * specMultiplier rec42)
        = 2041/200
    ∧ pr42.risk10Year
        ≠ min 95 ((calculateBaseRisk 42 "male" 100 none none none).1 * specMultiplier rec42)
    ∧ pr42.risk30Year
        ≠ min 95 ((calculateBaseRisk 42 "male" 100 none none none).1 * specMultiplier rec42 * (9/5)) := by
  have hm : min 95 ((calculateBaseRisk 42 "male" 100 none none none).1 * specMultiplier rec42)
      = 2041/200 := by
    norm_num [calculateBaseRisk, specMultiplier, rec42, pow105, fst_ite,
      isYes_none, isSmokingCurrent_none]
  refine ⟨?_, hm, ?_, ?_⟩
  · norm_num [preventCalculate, rec42, pr42, calculateBaseRisk, pow105, qs,
      isYes_none, isSmokingCurrent_none, round1, jsRound] <;> decide
  · rw [hm]; norm_num [pr42]
  · norm_num [calculateBaseRisk, specMultiplier, rec42, pow105, fst_ite,
      isYes_none, isSmokingCurrent_none, pr42]

/-- Witness for the amended C7 at `rec42`. -/
theorem prevent_formula_rounded_witness :
    pr42.risk10Year
        = round1 (min 95 (specBaseRisk 42 "male" 100 none none none * specMultiplier rec42))
    ∧ pr42.risk30Year
        = round1 (min 95 (specBaseRisk 42 "male" 100 none none none * specMultiplier rec42 * (9/5)))
    ∧ (calculateBaseRisk 42 "male" 100 none none none).1
        = specBaseRisk 42 "male" 100 none none none := by
  have hres : preventCalculate rec42 = some pr42 := by
    norm_num [preventCalculate, rec42, pr42, calculateBaseRisk, pow105, qs,
      isYes_none, isSmokingCurrent_none, round1, jsRound] <;> decide
  exact prevent_formula_rounded rec42 42 "male" 100 pr42 rfl rfl rfl hres

/-- Section 4 never moves the cursor. -/
lemma askNextOrFinish_idx (c : ChatContext) :
    (askNextOrFinish c).1.currentQuestionIndex = c.currentQuestionIndex := by
  obtain ⟨cd, idx, ph, fu, w1, w2, w3, ra⟩ := c
  unfold askNextOrFinish
  rcases hq : QUESTION_FLOW.get? idx with _ | f <;> simp [hq]

/-- Section 4 never touches the collected data. -/
lemma askNextOrFinish_data (c : ChatContext) :
    (askNextOrFinish c).1.collectedData = c.collectedData := by
  obtain ⟨cd, idx, ph, fu, w1, w2, w3, ra⟩ := c
  unfold askNextOrFinish
  rcases hq : QUESTION_FLOW.get? idx with _ | f <;> simp [hq]

/-- The cursor never decreases across a message step. -/
lemma chatStep_idx_mono (c : ChatContext) (m : String) (ai : Option JSVal) :
    c.currentQuestionIndex ≤ (chatStep c m ai).1.currentQuestionIndex := by
  obtain ⟨cd, idx, ph, fu, w1, w2, w3, ra⟩ := c
  unfold chatStep
  split_ifs with h1 h2 h3
  · unfold confirmationStep
    split_ifs <;> simp
  · unfold loweringStep
    split_ifs <;> simp
  · unfold comparisonStep
    split_ifs <;> simp
  · rcases fu with _ | k
    · unfold collectingStep
      rcases hq : QUESTION_FLOW.get? idx with _ | f
      · simp [hq]
      · simp only [hq]
        rcases ai with _ | v
        · rcases hp : parseAnswer m f with _ | v
          · simp only [hp]
            split_ifs <;> simp [askNextOrFinish_idx]
          · simp only [hp]
            rcases hcf : checkFollowUp f v with _ | k <;>
              simp [hcf, askNextOrFinish_idx]
        · rcases hcf : checkFollowUp f v with _ | k <;>
            simp [hcf, askNextOrFinish_idx]
    · unfold followUpStep
      rcases hn : followUpNext k with _ | k2 <;> simp [hn, askNextOrFinish_idx]

/-- When section 4 asks a base-field question, it is the question at the
resulting cursor. -/
lemma askNextOrFinish_nextQuestion (c : ChatContext) (f2 : Field)
    (h : (askNextOrFinish c).2 = .nextQuestion f2) :
    QUESTION_FLOW.get? (askNextOrFinish c).1.currentQuestionIndex = some f2 := by
  obtain ⟨cd, idx, ph, fu, w1, w2, w3, ra⟩ := c
  unfold askNextOrFinish at h ⊢
  rcases hq : QUESTION_FLOW.get? idx with _ | f <;> simp only [hq] at h ⊢ <;> simp_all

/-- Every base-field question emitted by a message step is the question at
the resulting cursor. -/
lemma chatStep_nextQuestion_at_cursor (c : ChatContext) (m : String) (ai : Option JSVal)
    (f2 : Field) (h : (chatStep c m ai).2 = .nextQuestion f2) :
    QUESTION_FLOW.get? (chatStep c m ai).1.currentQuestionIndex = some f2 := by
  obtain ⟨cd, idx, ph, fu, w1, w2, w3, ra⟩ := c
  unfold chatStep at h ⊢
  split_ifs at h ⊢ with h1 h2 h3
  · unfold confirmationStep at h ⊢
    split_ifs at h ⊢
  · unfold loweringStep at h ⊢
    split_ifs at h ⊢
  · unfold comparisonStep at h ⊢
    split_ifs at h ⊢
  · rcases fu with _ | k
    · unfold collectingStep at h ⊢
      rcases hq : QUESTION_FLOW.get? idx with _ | f
      · simp only [hq] at h ⊢
        simp_all
      · simp only [hq] at h ⊢
        rcases ai with _ | v
        · rcases hp : parseAnswer m f with _ | v
          · simp only [hp] at h ⊢
            split_ifs at h ⊢ <;>
              first
                | exact askNextOrFinish_nextQuestion _ _ h
                | simp_all
          · simp only [hp] at h ⊢
            rcases hcf : checkFollowUp f v with _ | k <;> simp only [hcf] at h ⊢
            · exact askNextOrFinish_nextQuestion _ _ h
            · simp_all
        · rcases hcf : checkFollowUp f v with _ | k <;> simp only [hcf] at h ⊢
          · exact askNextOrFinish_nextQuestion _ _ h
          · simp_all
    · unfold followUpStep at h ⊢
      rcases hn : followUpNext k with _ | k2 <;> simp only [hn] at h ⊢
      · exact askNextOrFinish_nextQuestion _ _ h
      · simp_all

/-- A pattern starts with itself. -/
lemma listStarts_self (p : List Char) : listStarts p p = true := by
  induction p with
  | nil => rfl
  | cons c r ih => simp [listStarts, ih]

/-- A suffix is a substring. -/
lemma listHasSub_suffix (p t : List Char) : listHasSub p (t ++ p) = true := by
  induction t with
  | nil =>
    cases p with
    | nil => rfl
    | cons c r => simp [listHasSub, listStarts_self]
  | cons c t ih => simp [listHasSub, ih]

/-- `includes` finds a suffix. -/
lemma jsIncludes_of_suffix (u v : String) : jsIncludes (u ++ v) v = true := by
  simp [jsIncludes, String.toList, String.data_append, listHasSub_suffix]

/-- The required-field re-prompt text contains the question text of the field. -/
lemma reprompt_contains (f : Field) : jsIncludes (repromptText f) (fieldText f) = true := by
  unfold repromptText
  exact jsIncludes_of_suffix _ _

/-- C6.  In the collecting state, an unknown answer (unknown phrase detected,
nothing parseable) to a required field leaves the whole context unchanged —
in particular the cursor — and returns a re-prompt whose text contains the
field's question; an unknown answer to an optional field stores `null` for
that field and advances the cursor by one.  Moreover the cursor never
decreases on any step, and every base-field question a step emits is the
question at the resulting cursor, so a field passed by the cursor is never
asked again in the session. -/
theorem unknown_required_optional (ctx : ChatContext) (msg : String) (f : Field)
    (hc : ctx.waitingForConfirmation = false) (hl : ctx.waitingForRiskLowering = false)
    (hcomp : ctx.waitingForComparison = false) (hfu : ctx.followUpState = none)
    (hf : QUESTION_FLOW.get? ctx.currentQuestionIndex = some f)
    (hu : isResponseUnknown msg = true) (hp : parseAnswer msg f = none) :
    (fieldRequired f = true →
      chatStep ctx msg none = (ctx, .requiredReprompt (repromptText f))
      ∧ jsIncludes (repromptText f) (fieldText f) = true)
    ∧ (fieldRequired f = false →
      (chatStep ctx msg none).1.collectedData f = .jnull
      ∧ (chatStep ctx msg none).1.currentQuestionIndex = ctx.currentQuestionIndex + 1)
    ∧ (∀ (c2 : ChatContext) (m2 : String) (ai : Option JSVal),
        c2.currentQuestionIndex ≤ (chatStep c2 m2 ai).1.currentQuestionIndex)
    ∧ (∀ (c2 : ChatContext) (m2 : String) (ai : Option JSVal) (f2 : Field),
        (chatStep c2 m2 ai).2 = .nextQuestion f2 →
        QUESTION_FLOW.get? (chatStep c2 m2 ai).1.currentQuestionIndex = some f2) := by
  simp only [List.get?_eq_getElem?] at hf
  refine ⟨fun hreq => ⟨?_, reprompt_contains f⟩, fun hopt => ?_,
    chatStep_idx_mono, chatStep_nextQuestion_at_cursor⟩
  · simp [chatStep, collectingStep, hc, hl, hcomp, hfu, hf, hp, hu, hreq]
  · simp [chatStep, collectingStep, hc, hl, hcomp, hfu, hf, hp, hu, hopt,
      askNextOrFinish_idx, askNextOrFinish_data, setField]

/-- C3 (amended).  The unknown check is applied after AI extraction and
field-specific parsing, not before: whenever parsing yields a value — even if
the same utterance contains an unknown phrase — the parsed value is stored
into the record.  The unknown outcome is reached only when no value was
parsed. -/
theorem parse_precedes_unknown (ctx : ChatContext) (msg : String) (f : Field) (v : JSVal)
    (hc : ctx.waitingForConfirmation = false) (hl : ctx.waitingForRiskLowering = false)
    (hcomp : ctx.waitingForComparison = false) (hfu : ctx.followUpState = none)
    (hf : QUESTION_FLOW.get? ctx.currentQuestionIndex = some f)
    (hp : parseAnswer msg f = some v) :
    (chatStep ctx msg none).1.collectedData f = .val v := by
  simp only [List.get?_eq_getElem?] at hf
  rcases hcf : checkFollowUp f v with _ | k <;>
    simp [chatStep, collectingStep, hc, hl, hcomp, hfu, hf, hp, hcf,
      askNextOrFinish_data, setField]

/-- C10.  In the calculate-confirmation phase there is no clarification
re-prompt: an utterance whose lowercase form contains none of the substrings
"yes", "sure", "ok" is treated as a negative answer — the flag is cleared,
nothing else in the context changes (data retained, no risk computed), and the
deferral message is returned; any utterance containing one of those substrings
(also inside another word, as in "yesterday") triggers the risk calculation,
stores the assessment, and moves to the lowering question. -/
theorem confirmation_no_clarification (ctx : ChatContext) (msg : String) (ai : Option JSVal)
    (hc : ctx.waitingForConfirmation = true) :
    ((jsIncludes (jsLower msg) "yes" || jsIncludes (jsLower msg) "sure"
        || jsIncludes (jsLower msg) "ok") = false →
      chatStep ctx msg ai = ({ ctx with waitingForConfirmation := false }, .deferral deferralText))
    ∧ ((jsIncludes (jsLower msg) "yes" || jsIncludes (jsLower msg) "sure"
        || jsIncludes (jsLower msg) "ok") = true →
      (chatStep ctx msg ai).2 = .riskSummary (calculateRisk (toPatientData ctx.collectedData))
      ∧ (chatStep ctx msg ai).1.riskAssessment
          = some (calculateRisk (toPatientData ctx.collectedData))
      ∧ (chatStep ctx msg ai).1.waitingForRiskLowering = true
      ∧ (chatStep ctx msg ai).1.collectedData = ctx.collectedData) := by
  constructor
  · intro hno
    have hno2 : yes3 msg = false := hno
    simp [chatStep, confirmationStep, hc, hno2]
  · intro hyes
    have hyes2 : yes3 msg = true := hyes
    simp [chatStep, confirmationStep, hc, hyes2]

/-- Witness for C6: "not sure" on the required age field re-prompts without
moving; "not sure" on the optional systolic-BP field stores `null` and
advances the cursor from 2 to 3. -/
theorem unknown_required_optional_witness :
    (chatStep initialContext "not sure" none
        = (initialContext, .requiredReprompt (repromptText .age))
      ∧ jsIncludes (repromptText .age) (fieldText .age) = true)
    ∧ ((chatStep { initialContext with currentQuestionIndex := 2 } "not sure" none).1.collectedData .systolicBP
          = .jnull
      ∧ (chatStep { initialContext with currentQuestionIndex := 2 } "not sure" none).1.currentQuestionIndex
          = 3) := by
  refine ⟨(unknown_required_optional initialContext "not sure" .age rfl rfl rfl rfl
      (by decide) (by decide) (by decide)).1 rfl, ?_⟩
  exact (unknown_required_optional { initialContext with currentQuestionIndex := 2 }
      "not sure" .systolicBP rfl rfl rfl rfl (by decide) (by decide) (by decide)).2.1 rfl

/-- C3 counterexample.  The utterance "not sure, maybe 45" contains the
unknown phrase "not sure", yet on the age field the handler stores the parsed
value 45 and advances the cursor: the unknown check did not short-circuit
before field parsing, and a parsed value from the same utterance was stored. -/
theorem unknown_phrase_parsed_value_stored :
    isResponseUnknown "not sure, maybe 45" = true
    ∧ parseAnswer "not sure, maybe 45" .age = some (.num 45)
    ∧ (chatStep initialContext "not sure, maybe 45" none).1.collectedData .age = .val (.num 45)
    ∧ (chatStep initialContext "not sure, maybe 45" none).1.currentQuestionIndex = 1 := by
  have h0 : firstNumMatch "not sure, maybe 45".toList = some (['4', '5'], []) := by decide
  have hnat : natOfDigits ['4', '5'] = 45 := by decide
  have hnil : natOfDigits [] = 0 := rfl
  have hq45 : qOfParts ['4', '5'] [] = 45 := by
    norm_num [qOfParts, hnat, hnil]
  have hp : parseAnswer "not sure, maybe 45" .age = some (.num 45) := by
    simp only [parseAnswer]
    rw [if_neg (by decide)]
    simp only [jsNumMatch]
    rw [h0]
    simp [hq45]
  have hmk : checkFollowUp Field.age (.num 45) = none := rfl
  have hf0 : QUESTION_FLOW[0]? = some Field.age := rfl
  refine ⟨by decide, hp, ?_, ?_⟩
  · simp [chatStep, collectingStep, initialContext, hf0, hp, hmk,
      askNextOrFinish_data, setField]
  · simp [chatStep, collectingStep, initialContext, hf0, hp, hmk, askNextOrFinish_idx]

/-- Witness for C10: "maybe later" defers, "Yes please" triggers the
calculation. -/
theorem confirmation_no_clarification_witness :
    chatStep { initialContext with waitingForConfirmation := true } "maybe later" none
        = ({ initialContext with waitingForConfirmation := false }, .deferral deferralText)
    ∧ (chatStep { initialContext with waitingForConfirmation := true } "Yes please" none).2
        = .riskSummary (calculateRisk (toPatientData
            ({ initialContext with waitingForConfirmation := true } : ChatContext).collectedData)) := by
  constructor
  · exact (confirmation_no_clarification { initialContext with waitingForConfirmation := true }
      "maybe later" none rfl).1 (by decide)
  · exact ((confirmation_no_clarification { initialContext with waitingForConfirmation := true }
      "Yes please" none rfl).2 (by decide)).1

/-- Witness for the amended C3 at the concrete utterance. -/
theorem parse_precedes_unknown_witness :
    (chatStep initialContext "not sure, maybe 45" none).1.collectedData .age
      = .val (.num (qOfParts ['4', '5'] [])) := by
  have h0 : firstNumMatch "not sure, maybe 45".toList = some (['4', '5'], []) := by decide
  have hp : parseAnswer "not sure, maybe 45" .age = some (.num (qOfParts ['4', '5'] [])) := by
    simp only [parseAnswer]
    rw [if_neg (by decide)]
    simp only [jsNumMatch]
    rw [h0]
    simp
  exact parse_precedes_unknown initialContext "not sure, maybe 45" .age _ rfl rfl rfl rfl
    (by decide) hp

end IHI

